import Mathlib

/-!
Lumina Clothing storefront script (`static/js/main.js`)

A shallow embedding of the page-load handler of `main.js` and of the three
behaviours it wires up: the alert auto-dismisser, the form validator and the
password matcher.

The document is a list of elements in document order; an element is referred to
by its position in that list, which plays the part of the JavaScript object
reference held by the closures of the script.  Listener registrations and
pending timers are explicit components of the state.  A script that raises keeps
every effect it had before raising, so each operation returns the new state
together with its completion.
-/

namespace Lumina

/-! Data model -/

/-- An element of the page, with the attributes and properties the script reads
or writes.  `valid` is what the native `checkValidity()` reports for the element
in the current state, `customValidity` the message last given to
`setCustomValidity`, and `closed` records that the alert component dismissed the
element. -/
structure Element where
  id : String
  classList : List String
  value : String
  customValidity : String
  valid : Bool
  closed : Bool
deriving DecidableEq, Repr

/-- How a piece of script ends: normally, or by raising a `TypeError`. -/
inductive Completion where
  | normal
  | throwTypeError
deriving DecidableEq, Repr

/-- The selectors the script passes to `querySelectorAll`: a class selector
`.c` and a compound `s:not(t)`. -/
inductive Selector where
  | cls (c : String)
  | andNot (s t : Selector)
deriving DecidableEq, Repr

/-- The callbacks the script hands to `setTimeout`: the closure of lines 8-11,
which holds the alert it was created for. -/
inductive Callback where
  | close (alert : Nat)
deriving DecidableEq, Repr

/-- The functions the script registers as event listeners: the closure of lines
17-23, which holds its form, and `validatePassword`, which holds the results of
the two field lookups (either of which may be `null`). -/
inductive Handler where
  | submit (form : Nat)
  | validate (password confirm_password : Option Nat)
deriving DecidableEq, Repr

/-- A pending timer. -/
structure Timer where
  callback : Callback
  delay : Nat
deriving DecidableEq, Repr

/-- A listener registration on an element. -/
structure Listener where
  target : Nat
  eventType : String
  handler : Handler
  useCapture : Bool
deriving DecidableEq, Repr

/-- The state of the page. -/
structure Document where
  elements : List Element
  listeners : List Listener
  timers : List Timer
deriving DecidableEq, Repr

/-- An event being dispatched, with its canceled and stop-propagation flags. -/
structure Event where
  eventType : String
  defaultPrevented : Bool
  propagationStopped : Bool
deriving DecidableEq, Repr

/-! Browser operations used by the script -/

/-- Whether an element matches a selector. -/
def Selector.matches : Selector → Element → Bool
  | .cls c, e => decide (c ∈ e.classList)
  | .andNot s t, e => s.matches e && !(t.matches e)

/-- The positions, counted from `i`, of the elements matching `sel`. -/
def matchesFrom (sel : Selector) : Nat → List Element → List Nat
  | _, [] => []
  | i, e :: es =>
    if sel.matches e then i :: matchesFrom sel (i + 1) es
    else matchesFrom sel (i + 1) es

/-- The elements matching `sel`, in document order. -/
def querySelectorAll (sel : Selector) (d : Document) : List Nat :=
  matchesFrom sel 0 d.elements

/-- The position, counted from `i`, of the first element whose id is `id`. -/
def findIdFrom (id : String) : Nat → List Element → Option Nat
  | _, [] => none
  | i, e :: es => if e.id = id then some i else findIdFrom id (i + 1) es

/-- The first element in document order whose id is `id`, or `null`. -/
def getElementById (id : String) (d : Document) : Option Nat :=
  findIdFrom id 0 d.elements

/-- Apply `f` to the element at position `i`. -/
def updateElement (i : Nat) (f : Element → Element) (d : Document) : Document :=
  { d with elements := d.elements.modify f i }

/-- Schedule `cb` to run after `delay` milliseconds. -/
def setTimeout (cb : Callback) (delay : Nat) (d : Document) : Document :=
  { d with timers := d.timers ++ [⟨cb, delay⟩] }

/-- Register `h` for `ty` events on `target`; on `null` the call raises. -/
def addEventListener (target : Option Nat) (ty : String) (h : Handler)
    (useCapture : Bool) (d : Document) : Document × Completion :=
  match target with
  | none => (d, .throwTypeError)
  | some t => ({ d with listeners := d.listeners ++ [⟨t, ty, h, useCapture⟩] }, .normal)

/-- Add a token to a class list: nothing changes when it is already there. -/
def classListAdd (c : String) (cs : List String) : List String :=
  if c ∈ cs then cs else cs ++ [c]

/-- Cancel the default action of an event. -/
def preventDefault (ev : Event) : Event := { ev with defaultPrevented := true }

/-- Stop the propagation of an event. -/
def stopPropagation (ev : Event) : Event := { ev with propagationStopped := true }

/-- Set the custom validity message of the element at position `i`. -/
def setCustomValidity (i : Nat) (msg : String) (d : Document) : Document :=
  updateElement i (fun e => { e with customValidity := msg }) d

/-- Modelled from the spec: the close behaviour of the host UI framework's alert
component (`new bootstrap.Alert(alert).close()`), which is not part of this
repository.  It dismisses the element it was built for, and closing an element
already dismissed changes nothing. -/
def bootstrapAlertClose (alert : Nat) (d : Document) : Document :=
  updateElement alert (fun e => { e with closed := true }) d

/-- The `value` property read through a reference; `none` when the reference is
`null`, where the read raises. -/
def valueOf (r : Option Nat) (d : Document) : Option String :=
  match r with
  | none => none
  | some i => (d.elements[i]?).map (fun e => e.value)

/-- What the native `checkValidity()` of the element at position `i` returns. -/
def checkValidity (i : Nat) (d : Document) : Bool :=
  match d.elements[i]? with
  | some e => e.valid
  | none => true

/-- The custom validity message of the element at position `i`. -/
def customValidityOf (i : Nat) (d : Document) : Option String :=
  (d.elements[i]?).map (fun e => e.customValidity)

/-- The class list of the element at position `i`. -/
def classListOf (i : Nat) (d : Document) : List String :=
  match d.elements[i]? with
  | some e => e.classList
  | none => []

/-! The script -/

/-- The selector of line 6, `.alert:not(.alert-danger)`. -/
def alertSelector : Selector := .andNot (.cls "alert") (.cls "alert-danger")

/-- The selector of line 15, `.needs-validation`. -/
def formSelector : Selector := .cls "needs-validation"

/-- The timer callback of lines 8-11: build the alert component for `alert` and
close it. -/
def closeAlert (alert : Nat) (d : Document) : Document :=
  bootstrapAlertClose alert d

/-- The submit listener of lines 17-23. -/
def submitHandler (form : Nat) (event : Event) (d : Document) : Event × Document :=
  let event :=
    if !checkValidity form d then stopPropagation (preventDefault event) else event
  (event,
    updateElement form
      (fun e => { e with classList := classListAdd "was-validated" e.classList }) d)

/-- The function `validatePassword` of lines 32-38, over the two references its
closure holds. -/
def validatePassword (password confirm_password : Option Nat) (d : Document) :
    Document × Completion :=
  match valueOf password d with
  | none => (d, .throwTypeError)
  | some p =>
    match confirm_password, valueOf confirm_password d with
    | some c, some cv =>
      if p != cv then (setCustomValidity c "Passwords Don't Match" d, .normal)
      else (setCustomValidity c "" d, .normal)
    | _, _ => (d, .throwTypeError)

/-- Run a timer callback. -/
def Callback.run : Callback → Document → Document
  | .close alert, d => closeAlert alert d

/-- Run a listener on an event. -/
def Handler.run : Handler → Event → Document → Event × Document × Completion
  | .submit form, ev, d =>
    let r := submitHandler form ev d
    (r.1, r.2, .normal)
  | .validate p c, ev, d =>
    let r := validatePassword p c d
    (ev, r.1, r.2)

/-- Run, in registration order, the listeners of `ls` registered on `target` for
the type of `ev`.  A listener that raises does not keep the later ones from
running; the completions are collected. -/
def runListeners : List Listener → Nat → Event → Document →
    Event × Document × List Completion
  | [], _, ev, d => (ev, d, [])
  | l :: ls, target, ev, d =>
    if l.target = target ∧ l.eventType = ev.eventType then
      let r := l.handler.run ev d
      let rs := runListeners ls target r.1 r.2.1
      (rs.1, rs.2.1, r.2.2 :: rs.2.2)
    else runListeners ls target ev d

/-- Dispatch `ev` at the element `target`. -/
def dispatchEvent (target : Nat) (ev : Event) (d : Document) :
    Event × Document × List Completion :=
  runListeners d.listeners target ev d

/-- A fresh event of the given type. -/
def newEvent (ty : String) : Event := ⟨ty, false, false⟩

/-- Let `ms` milliseconds pass: the timers that are due run in the order they
were set and are no longer pending. -/
def elapse (ms : Nat) (d : Document) : Document :=
  (d.timers.filter (fun t => decide (t.delay ≤ ms))).foldl (fun d t => t.callback.run d)
    { d with timers := d.timers.filter (fun t => !decide (t.delay ≤ ms)) }

/-- Lines 7-12: one timer of 5000 ms for each alert. -/
def scheduleAlerts (alerts : List Nat) (d : Document) : Document :=
  alerts.foldl (fun d alert => setTimeout (.close alert) 5000 d) d

/-- Lines 16-24: one submit listener for each form. -/
def attachValidation (forms : List Nat) (d : Document) : Document :=
  forms.foldl
    (fun d form => (addEventListener (some form) "submit" (.submit form) false d).1) d

/-- Lines 27-42: the password matcher. -/
def passwordMatcher (d : Document) : Document × Completion :=
  let registerForm := getElementById "registerForm" d
  match registerForm with
  | none => (d, .normal)
  | some _ =>
    let password := getElementById "password" d
    let confirm_password := getElementById "confirm_password" d
    let r := addEventListener password "change" (.validate password confirm_password)
      false d
    match r.2 with
    | .throwTypeError => r
    | .normal =>
      addEventListener confirm_password "keyup"
        (.validate password confirm_password) false r.1

/-- The `DOMContentLoaded` listener, lines 3-43. -/
def onDOMContentLoaded (d : Document) : Document × Completion :=
  let alerts := querySelectorAll alertSelector d
  let d := scheduleAlerts alerts d
  let forms := querySelectorAll formSelector d
  let d := attachValidation forms d
  passwordMatcher d

/-- A submit attempt on `form` at a moment when native validation reports `v`
for it: a fresh submit event is dispatched at the form. -/
def submitAttempt (form : Nat) (v : Bool) (d : Document) : Event × Document :=
  let r := dispatchEvent form (newEvent "submit")
    (updateElement form (fun e => { e with valid := v }) d)
  (r.1, r.2.1)

/-- A run of submit attempts on `form`, one for each validity outcome. -/
def submitAttempts (form : Nat) (vs : List Bool) (d : Document) : Document :=
  vs.foldl (fun d v => (submitAttempt form v d).2) d

/-- The user edits the field at position `i`. -/
def setValue (i : Nat) (v : String) (d : Document) : Document :=
  updateElement i (fun e => { e with value := v }) d

/-- Whether the element at position `i` has been dismissed. -/
def closedOf (i : Nat) (d : Document) : Bool :=
  match d.elements[i]? with
  | some e => e.closed
  | none => false

/-- The page as the browser hands it to the script: the script has registered
no listener and set no timer yet. -/
def page (els : List Element) : Document := ⟨els, [], []⟩

/-- The timer line 8 sets for `alert`. -/
def closeTimer (alert : Nat) : Timer := ⟨.close alert, 5000⟩

/-- The registration line 17 makes for `form`. -/
def submitListener (form : Nat) : Listener := ⟨form, "submit", .submit form, false⟩

/-- The registration line 40 makes on the password field. -/
def changeListener (password : Nat) (confirm_password : Option Nat) : Listener :=
  ⟨password, "change", .validate (some password) confirm_password, false⟩

/-- The registration line 41 makes on the confirmation field. -/
def keyupListener (password confirm_password : Nat) : Listener :=
  ⟨confirm_password, "keyup", .validate (some password) (some confirm_password), false⟩

/-! Sample pages -/

/-- An element with the given id, classes, value and native validity. -/
def mkElement (id : String) (classList : List String) (value : String) (valid : Bool) :
    Element :=
  ⟨id, classList, value, "", valid, false⟩

/-- A registration page: the form, then the two password fields. -/
def registerPage (p c : String) : List Element :=
  [mkElement "registerForm" ["needs-validation"] "" true,
   mkElement "password" ["form-control"] p true,
   mkElement "confirm_password" ["form-control"] c true]

/-- A page with three alerts, the second of error severity. -/
def alertsPage : List Element :=
  [mkElement "" ["alert", "alert-success"] "" true,
   mkElement "" ["alert", "alert-danger"] "" true,
   mkElement "" ["alert", "alert-info"] "" true]

/-- A page without the registration form: a login form and its two fields. -/
def loginPage : List Element :=
  [mkElement "loginForm" ["needs-validation"] "" true,
   mkElement "email" ["form-control"] "" true,
   mkElement "login_password" ["form-control"] "" true]

/-- A registration page whose confirmation field is missing, with an alert. -/
def pageWithoutConfirm : List Element :=
  [mkElement "" ["alert", "alert-info"] "" true,
   mkElement "registerForm" ["needs-validation"] "" true,
   mkElement "password" ["form-control"] "" true]

/-! Elementary facts about the state operations -/

theorem elements_updateElement (i : Nat) (f : Element → Element) (d : Document) (k : Nat) :
    (updateElement i f d).elements[k]? =
      if i = k then (d.elements[k]?).map f else d.elements[k]? := by
  simp only [updateElement, List.getElem?_modify]
  by_cases h : i = k
  · subst h; simp
  · cases hk : d.elements[k]? <;> simp [h]

theorem updateElement_updateElement (i : Nat) (f g : Element → Element) (d : Document) :
    updateElement i g (updateElement i f d) = updateElement i (g ∘ f) d := by
  simp [updateElement, List.modify_modify_eq]

theorem setCustomValidity_setCustomValidity (i : Nat) (a b : String) (d : Document) :
    setCustomValidity i a (setCustomValidity i b d) = setCustomValidity i a d := by
  unfold setCustomValidity
  rw [updateElement_updateElement]
  rfl

theorem valueOf_setCustomValidity (r : Option Nat) (i : Nat) (m : String) (d : Document) :
    valueOf r (setCustomValidity i m d) = valueOf r d := by
  cases r with
  | none => rfl
  | some k =>
    simp only [valueOf, setCustomValidity, elements_updateElement]
    by_cases h : i = k
    · subst h; cases d.elements[i]? <;> simp
    · simp [h]

theorem customValidityOf_setCustomValidity (i : Nat) (m : String) (d : Document)
    (h : i < d.elements.length) :
    customValidityOf i (setCustomValidity i m d) = some m := by
  simp [customValidityOf, setCustomValidity, elements_updateElement,
    List.getElem?_eq_getElem h]

theorem valueOf_some_lt {i : Nat} {d : Document} {v : String}
    (h : valueOf (some i) d = some v) : i < d.elements.length := by
  simp only [valueOf, Option.map_eq_some'] at h
  obtain ⟨e, he, _⟩ := h
  exact (List.getElem?_eq_some.mp he).1

/-- What `validatePassword` does when both fields are there. -/
theorem validatePassword_eq (d : Document) (i j : Nat) (p c : String)
    (hp : valueOf (some i) d = some p) (hc : valueOf (some j) d = some c) :
    validatePassword (some i) (some j) d =
      (setCustomValidity j (if p = c then "" else "Passwords Don't Match") d, .normal) := by
  unfold validatePassword
  simp only [hp, hc]
  by_cases h : p = c <;> simp [h]

/-! The effects of the page-load listener -/

theorem scheduleAlerts_eq (alerts : List Nat) (d : Document) :
    scheduleAlerts alerts d = { d with timers := d.timers ++ alerts.map closeTimer } := by
  unfold scheduleAlerts
  induction alerts generalizing d with
  | nil => simp
  | cons a as ih =>
    rw [List.foldl_cons, ih]
    simp [setTimeout, closeTimer]

theorem attachValidation_eq (forms : List Nat) (d : Document) :
    attachValidation forms d =
      { d with listeners := d.listeners ++ forms.map submitListener } := by
  unfold attachValidation
  induction forms generalizing d with
  | nil => simp
  | cons a as ih =>
    rw [List.foldl_cons, ih]
    simp [addEventListener, submitListener]

/-- The state in which the password matcher starts. -/
theorem onDOMContentLoaded_eq (els : List Element) :
    onDOMContentLoaded (page els) =
      passwordMatcher
        ⟨els, (matchesFrom formSelector 0 els).map submitListener,
          (matchesFrom alertSelector 0 els).map closeTimer⟩ := by
  simp [onDOMContentLoaded, scheduleAlerts_eq, attachValidation_eq, querySelectorAll, page]

/-- Page load when the registration form is absent. -/
theorem load_without_form (els : List Element)
    (hf : findIdFrom "registerForm" 0 els = none) :
    onDOMContentLoaded (page els) =
      (⟨els, (matchesFrom formSelector 0 els).map submitListener,
          (matchesFrom alertSelector 0 els).map closeTimer⟩, .normal) := by
  rw [onDOMContentLoaded_eq]
  simp [passwordMatcher, getElementById, hf]

/-- Page load when the form is present and the password field is absent. -/
theorem load_without_password (els : List Element) (f : Nat)
    (hf : findIdFrom "registerForm" 0 els = some f)
    (hp : findIdFrom "password" 0 els = none) :
    onDOMContentLoaded (page els) =
      (⟨els, (matchesFrom formSelector 0 els).map submitListener,
          (matchesFrom alertSelector 0 els).map closeTimer⟩, .throwTypeError) := by
  rw [onDOMContentLoaded_eq]
  simp [passwordMatcher, getElementById, hf, hp, addEventListener]

/-- Page load when the form and the password field are present and the
confirmation field is absent. -/
theorem load_without_confirm (els : List Element) (f p : Nat)
    (hf : findIdFrom "registerForm" 0 els = some f)
    (hp : findIdFrom "password" 0 els = some p)
    (hc : findIdFrom "confirm_password" 0 els = none) :
    onDOMContentLoaded (page els) =
      (⟨els, (matchesFrom formSelector 0 els).map submitListener ++ [changeListener p none],
          (matchesFrom alertSelector 0 els).map closeTimer⟩, .throwTypeError) := by
  rw [onDOMContentLoaded_eq]
  simp [passwordMatcher, getElementById, hf, hp, hc, addEventListener, changeListener]

/-- Page load when the form and both fields are present. -/
theorem load_with_fields (els : List Element) (f p c : Nat)
    (hf : findIdFrom "registerForm" 0 els = some f)
    (hp : findIdFrom "password" 0 els = some p)
    (hc : findIdFrom "confirm_password" 0 els = some c) :
    onDOMContentLoaded (page els) =
      (⟨els, (matchesFrom formSelector 0 els).map submitListener ++
            [changeListener p (some c), keyupListener p c],
          (matchesFrom alertSelector 0 els).map closeTimer⟩, .normal) := by
  rw [onDOMContentLoaded_eq]
  simp [passwordMatcher, getElementById, hf, hp, hc, addEventListener, changeListener,
    keyupListener]

/-! Selector queries -/

theorem mem_matchesFrom (sel : Selector) (els : List Element) (i k : Nat) :
    k ∈ matchesFrom sel i els ↔
      i ≤ k ∧ ∃ e, els[k - i]? = some e ∧ sel.matches e = true := by
  induction els generalizing i with
  | nil => simp [matchesFrom]
  | cons e es ih =>
    have hstep : ∀ x : Element → Prop, (i + 1 ≤ k ∧ ∃ e, es[k - (i + 1)]? = some e ∧ x e) ↔
        (i < k ∧ ∃ e', (e :: es)[k - i]? = some e' ∧ x e') := by
      intro x
      constructor
      · rintro ⟨h, e', he', hx⟩
        refine ⟨h, e', ?_, hx⟩
        have : k - i = (k - (i + 1)) + 1 := by omega
        rw [this, List.getElem?_cons_succ]; exact he'
      · rintro ⟨h, e', he', hx⟩
        refine ⟨h, e', ?_, hx⟩
        have : k - i = (k - (i + 1)) + 1 := by omega
        rw [this, List.getElem?_cons_succ] at he'; exact he'
    unfold matchesFrom
    by_cases hm : sel.matches e = true
    · rw [if_pos hm, List.mem_cons, ih, hstep (fun e' => sel.matches e' = true)]
      constructor
      · rintro (h | ⟨h, e', he', hx⟩)
        · subst h; exact ⟨le_refl _, e, by simp, hm⟩
        · exact ⟨by omega, e', he', hx⟩
      · rintro ⟨h, e', he', hx⟩
        by_cases hk : k = i
        · exact Or.inl hk
        · exact Or.inr ⟨by omega, e', he', hx⟩
    · rw [if_neg hm, ih, hstep (fun e' => sel.matches e' = true)]
      constructor
      · rintro ⟨h, e', he', hx⟩
        exact ⟨by omega, e', he', hx⟩
      · rintro ⟨h, e', he', hx⟩
        by_cases hk : k = i
        · subst hk
          simp only [Nat.sub_self, List.getElem?_cons_zero, Option.some.injEq] at he'
          subst he'
          exact absurd hx hm
        · exact ⟨by omega, e', he', hx⟩

theorem mem_querySelectorAll (sel : Selector) (d : Document) (k : Nat) :
    k ∈ querySelectorAll sel d ↔ ∃ e, d.elements[k]? = some e ∧ sel.matches e = true := by
  simp [querySelectorAll, mem_matchesFrom]

theorem matchesFrom_nodup (sel : Selector) (els : List Element) (i : Nat) :
    (matchesFrom sel i els).Nodup := by
  induction els generalizing i with
  | nil => simp [matchesFrom]
  | cons e es ih =>
    unfold matchesFrom
    split
    · refine List.nodup_cons.mpr ⟨?_, ih (i + 1)⟩
      intro h
      have := ((mem_matchesFrom sel es (i + 1) i).mp h).1
      omega
    · exact ih (i + 1)

theorem length_matchesFrom (sel : Selector) (els : List Element) (i : Nat) :
    (matchesFrom sel i els).length = els.countP sel.matches := by
  induction els generalizing i with
  | nil => simp [matchesFrom]
  | cons e es ih =>
    unfold matchesFrom
    by_cases hm : sel.matches e = true
    · simp [hm, ih, List.countP_cons]
    · simp [hm, ih, List.countP_cons]

/-! Dispatch -/

theorem Handler.run_eventType (h : Handler) (ev : Event) (d : Document) :
    (h.run ev d).1.eventType = ev.eventType := by
  cases h with
  | submit form =>
    simp only [Handler.run, submitHandler]
    split <;> simp [stopPropagation, preventDefault]
  | validate p c => simp [Handler.run]

theorem runListeners_skip (ls : List Listener) (t : Nat) (ev : Event) (d : Document)
    (h : ∀ x ∈ ls, ¬ (x.target = t ∧ x.eventType = ev.eventType)) :
    runListeners ls t ev d = (ev, d, []) := by
  induction ls with
  | nil => rfl
  | cons l ls ih =>
    rw [runListeners, if_neg (h l (List.mem_cons_self _ _))]
    exact ih (fun x hx => h x (List.mem_cons_of_mem _ hx))

theorem runListeners_append_skip (a b : List Listener) (t : Nat) (ev : Event) (d : Document)
    (h : ∀ x ∈ a, ¬ (x.target = t ∧ x.eventType = ev.eventType)) :
    runListeners (a ++ b) t ev d = runListeners b t ev d := by
  induction a with
  | nil => rfl
  | cons l ls ih =>
    rw [List.cons_append, runListeners, if_neg (h l (List.mem_cons_self _ _))]
    exact ih (fun x hx => h x (List.mem_cons_of_mem _ hx))

/-- When exactly one registration applies, dispatch runs that listener once. -/
theorem runListeners_single (a b : List Listener) (l : Listener) (t : Nat) (ev : Event)
    (d : Document)
    (ha : ∀ x ∈ a, ¬ (x.target = t ∧ x.eventType = ev.eventType))
    (hb : ∀ x ∈ b, ¬ (x.target = t ∧ x.eventType = ev.eventType))
    (hl : l.target = t ∧ l.eventType = ev.eventType) :
    runListeners (a ++ l :: b) t ev d =
      ((l.handler.run ev d).1, (l.handler.run ev d).2.1, [(l.handler.run ev d).2.2]) := by
  rw [runListeners_append_skip a _ t ev d ha, runListeners, if_pos hl]
  have hb' : ∀ x ∈ b, ¬ (x.target = t ∧ x.eventType = (l.handler.run ev d).1.eventType) := by
    intro x hx
    rw [Handler.run_eventType]
    exact hb x hx
  simp [runListeners_skip b t _ _ hb']

/-- After page load the registrations are the submit listeners of the forms,
followed by registrations of the password matcher, none of which is for submit
events. -/
theorem load_listeners_shape (els : List Element) :
    ∃ M : List Listener,
      (onDOMContentLoaded (page els)).1.listeners =
          (matchesFrom formSelector 0 els).map submitListener ++ M ∧
        ∀ l ∈ M, l.eventType ≠ "submit" := by
  cases hf : findIdFrom "registerForm" 0 els with
  | none => exact ⟨[], by simp [load_without_form els hf], by simp⟩
  | some f =>
    cases hp : findIdFrom "password" 0 els with
    | none => exact ⟨[], by simp [load_without_password els f hf hp], by simp⟩
    | some p =>
      cases hc : findIdFrom "confirm_password" 0 els with
      | none =>
        refine ⟨[changeListener p none], by simp [load_without_confirm els f p hf hp hc], ?_⟩
        intro l hl
        simp only [List.mem_singleton] at hl
        subst hl
        simp [changeListener]
      | some c =>
        refine ⟨[changeListener p (some c), keyupListener p c],
          by simp [load_with_fields els f p c hf hp hc], ?_⟩
        intro l hl
        simp only [List.mem_cons, List.mem_singleton, List.not_mem_nil, or_false] at hl
        rcases hl with hl | hl <;> subst hl <;> simp [changeListener, keyupListener]

/-- A submit event dispatched at a form the script selected runs the submit
listener of that form, once, and nothing else. -/
theorem dispatch_submit (els : List Element) (form : Nat) (d : Document) (ev : Event)
    (hform : form ∈ matchesFrom formSelector 0 els)
    (hd : d.listeners = (onDOMContentLoaded (page els)).1.listeners)
    (hev : ev.eventType = "submit") :
    dispatchEvent form ev d =
      ((submitHandler form ev d).1, (submitHandler form ev d).2, [.normal]) := by
  obtain ⟨M, hM, hsub⟩ := load_listeners_shape els
  obtain ⟨s, t, hst⟩ := List.append_of_mem hform
  have hnd := matchesFrom_nodup formSelector els 0
  rw [hst] at hnd
  have hs : form ∉ s := fun h => by
    have := (List.nodup_append.mp hnd).2.2
    exact this h (List.mem_cons_self _ _)
  have ht : form ∉ t := (List.nodup_cons.mp (List.nodup_append.mp hnd).2.1).1
  have hL : d.listeners =
      s.map submitListener ++ submitListener form :: (t.map submitListener ++ M) := by
    rw [hd, hM, hst]; simp
  unfold dispatchEvent
  rw [hL, runListeners_single]
  · simp [submitListener, Handler.run]
  · intro x hx
    obtain ⟨a, ha, rfl⟩ := List.mem_map.mp hx
    intro h
    exact hs (by simpa [submitListener] using h.1 ▸ ha)
  · intro x hx
    rcases List.mem_append.mp hx with hx | hx
    · obtain ⟨a, ha, rfl⟩ := List.mem_map.mp hx
      intro h
      exact ht (by simpa [submitListener] using h.1 ▸ ha)
    · intro h
      exact hsub x hx (h.2.trans hev)
  · exact ⟨rfl, by simp [submitListener, hev]⟩

theorem load_elements (els : List Element) :
    (onDOMContentLoaded (page els)).1.elements = els := by
  cases hf : findIdFrom "registerForm" 0 els with
  | none => simp [load_without_form els hf]
  | some f =>
    cases hp : findIdFrom "password" 0 els with
    | none => simp [load_without_password els f hf hp]
    | some p =>
      cases hc : findIdFrom "confirm_password" 0 els with
      | none => simp [load_without_confirm els f p hf hp hc]
      | some c => simp [load_with_fields els f p c hf hp hc]

theorem load_timers (els : List Element) :
    (onDOMContentLoaded (page els)).1.timers =
      (matchesFrom alertSelector 0 els).map closeTimer := by
  cases hf : findIdFrom "registerForm" 0 els with
  | none => simp [load_without_form els hf]
  | some f =>
    cases hp : findIdFrom "password" 0 els with
    | none => simp [load_without_password els f hf hp]
    | some p =>
      cases hc : findIdFrom "confirm_password" 0 els with
      | none => simp [load_without_confirm els f p hf hp hc]
      | some c => simp [load_with_fields els f p c hf hp hc]

theorem lt_of_mem_matchesFrom {sel : Selector} {els : List Element} {k : Nat}
    (h : k ∈ matchesFrom sel 0 els) : k < els.length := by
  obtain ⟨_, e, he, _⟩ := (mem_matchesFrom sel els 0 k).mp h
  exact (List.getElem?_eq_some.mp he).1

/-! The marker class -/

theorem mem_classListAdd (c : String) (cs : List String) : c ∈ classListAdd c cs := by
  unfold classListAdd
  split <;> simp [*]

theorem classListAdd_of_mem {c : String} {cs : List String} (h : c ∈ cs) :
    classListAdd c cs = cs := by
  simp [classListAdd, h]

theorem classListOf_submitHandler (form : Nat) (ev : Event) (d : Document)
    (h : form < d.elements.length) :
    classListOf form (submitHandler form ev d).2 =
      classListAdd "was-validated" (classListOf form d) := by
  simp [classListOf, submitHandler, elements_updateElement, List.getElem?_eq_getElem h]

theorem checkValidity_setValid (form : Nat) (v : Bool) (d : Document)
    (h : form < d.elements.length) :
    checkValidity form (updateElement form (fun e => { e with valid := v }) d) = v := by
  simp [checkValidity, elements_updateElement, List.getElem?_eq_getElem h]

/-- A submit attempt on a selected form, spelled out. -/
theorem submitAttempt_eq (els : List Element) (form : Nat) (v : Bool) (d : Document)
    (hform : form ∈ matchesFrom formSelector 0 els)
    (hd : d.listeners = (onDOMContentLoaded (page els)).1.listeners) :
    submitAttempt form v d =
      submitHandler form (newEvent "submit")
        (updateElement form (fun e => { e with valid := v }) d) := by
  unfold submitAttempt
  rw [dispatch_submit els form _ (newEvent "submit") hform (by simpa [updateElement] using hd)
    rfl]

theorem submitAttempt_listeners (els : List Element) (form : Nat) (v : Bool) (d : Document)
    (hform : form ∈ matchesFrom formSelector 0 els)
    (hd : d.listeners = (onDOMContentLoaded (page els)).1.listeners) :
    (submitAttempt form v d).2.listeners = d.listeners := by
  rw [submitAttempt_eq els form v d hform hd]
  simp [submitHandler, updateElement]

theorem submitAttempt_length (els : List Element) (form : Nat) (v : Bool) (d : Document)
    (hform : form ∈ matchesFrom formSelector 0 els)
    (hd : d.listeners = (onDOMContentLoaded (page els)).1.listeners) :
    (submitAttempt form v d).2.elements.length = d.elements.length := by
  rw [submitAttempt_eq els form v d hform hd]
  simp [submitHandler, updateElement]

theorem submitAttempt_classList (els : List Element) (form : Nat) (v : Bool) (d : Document)
    (hform : form ∈ matchesFrom formSelector 0 els)
    (hd : d.listeners = (onDOMContentLoaded (page els)).1.listeners)
    (hlen : form < d.elements.length) :
    classListOf form (submitAttempt form v d).2 =
      classListAdd "was-validated" (classListOf form d) := by
  rw [submitAttempt_eq els form v d hform hd, classListOf_submitHandler _ _ _
    (by simpa [updateElement] using hlen)]
  simp [classListOf, elements_updateElement, List.getElem?_eq_getElem hlen]

theorem submitAttempt_event (els : List Element) (form : Nat) (v : Bool) (d : Document)
    (hform : form ∈ matchesFrom formSelector 0 els)
    (hd : d.listeners = (onDOMContentLoaded (page els)).1.listeners)
    (hlen : form < d.elements.length) :
    (submitAttempt form v d).1 =
      if v then newEvent "submit" else stopPropagation (preventDefault (newEvent "submit")) := by
  rw [submitAttempt_eq els form v d hform hd]
  simp only [submitHandler, checkValidity_setValid form v d hlen]
  cases v <;> simp

/-- Once the marker is there, further submit attempts keep the registrations,
the number of elements and the class list of the form. -/
theorem submitAttempts_stable (els : List Element) (form : Nat) (vs : List Bool)
    (d : Document)
    (hform : form ∈ matchesFrom formSelector 0 els)
    (hd : d.listeners = (onDOMContentLoaded (page els)).1.listeners)
    (hlen : form < d.elements.length)
    (hmark : "was-validated" ∈ classListOf form d) :
    (submitAttempts form vs d).listeners = d.listeners ∧
      (submitAttempts form vs d).elements.length = d.elements.length ∧
      classListOf form (submitAttempts form vs d) = classListOf form d := by
  induction vs generalizing d with
  | nil => simp [submitAttempts]
  | cons v vs ih =>
    have h1 := submitAttempt_listeners els form v d hform hd
    have h2 := submitAttempt_length els form v d hform hd
    have h3 := submitAttempt_classList els form v d hform hd hlen
    rw [classListAdd_of_mem hmark] at h3
    have := ih (submitAttempt form v d).2 (h1.trans hd) (by omega) (by rw [h3]; exact hmark)
    simp only [submitAttempts, List.foldl_cons] at this ⊢
    exact ⟨this.1.trans h1, this.2.1.trans h2, this.2.2.trans h3⟩

/-! Timers -/

theorem filter_closeTimer (alerts : List Nat) (i : Nat) (hnd : alerts.Nodup)
    (hi : i ∈ alerts) :
    (alerts.map closeTimer).filter (fun t => decide (t.callback = Callback.close i)) =
      [closeTimer i] := by
  induction alerts with
  | nil => simp at hi
  | cons a as ih =>
    have hnd' := List.nodup_cons.mp hnd
    by_cases ha : a = i
    · subst ha
      have : (as.map closeTimer).filter (fun t => decide (t.callback = Callback.close a)) = [] := by
        rw [List.filter_eq_nil_iff]
        intro t ht
        obtain ⟨b, hb, rfl⟩ := List.mem_map.mp ht
        have : b ≠ a := fun h => hnd'.1 (h ▸ hb)
        simp [closeTimer, this]
      simp [closeTimer] at this ⊢
      exact this
    · have hi' : i ∈ as := by
        rcases List.mem_cons.mp hi with h | h
        · exact absurd h.symm ha
        · exact h
      have := ih hnd'.2 hi'
      simp [closeTimer, ha] at this ⊢
      exact this

theorem runTimers_length (ts : List Timer) (d : Document) :
    (ts.foldl (fun d t => t.callback.run d) d).elements.length = d.elements.length := by
  induction ts generalizing d with
  | nil => rfl
  | cons t ts ih =>
    rw [List.foldl_cons, ih]
    cases t with
    | mk cb delay =>
      cases cb
      simp [Callback.run, closeAlert, bootstrapAlertClose, updateElement]

theorem runTimers_listeners (ts : List Timer) (d : Document) :
    (ts.foldl (fun d t => t.callback.run d) d).listeners = d.listeners := by
  induction ts generalizing d with
  | nil => rfl
  | cons t ts ih =>
    rw [List.foldl_cons, ih]
    cases t with
    | mk cb delay =>
      cases cb
      simp [Callback.run, closeAlert, bootstrapAlertClose, updateElement]

/-- Timers for other elements leave the element at position `k` as it is. -/
theorem runTimers_untouched (ts : List Timer) (d : Document) (k : Nat)
    (h : ∀ t ∈ ts, t.callback ≠ Callback.close k) :
    (ts.foldl (fun d t => t.callback.run d) d).elements[k]? = d.elements[k]? := by
  induction ts generalizing d with
  | nil => rfl
  | cons t ts ih =>
    rw [List.foldl_cons, ih _ (fun x hx => h x (List.mem_cons_of_mem _ hx))]
    have ht := h t (List.mem_cons_self _ _)
    cases t with
    | mk cb delay =>
      cases cb with
      | close a =>
        have : a ≠ k := fun hak => ht (by simp [hak])
        simp [Callback.run, closeAlert, bootstrapAlertClose, elements_updateElement, this]

theorem closedOf_close (k : Nat) (d : Document) (hk : k < d.elements.length) :
    closedOf k ((Callback.close k).run d) = true := by
  simp [closedOf, Callback.run, closeAlert, bootstrapAlertClose, elements_updateElement,
    List.getElem?_eq_getElem hk]

theorem closedOf_run_mono (t : Timer) (k : Nat) (d : Document)
    (h : closedOf k d = true) : closedOf k (t.callback.run d) = true := by
  cases t with
  | mk cb delay =>
    cases cb with
    | close a =>
      simp only [closedOf, Callback.run, closeAlert, bootstrapAlertClose,
        elements_updateElement] at h ⊢
      by_cases hak : a = k
      · subst hak
        cases hd : d.elements[a]? <;> simp [hd] at h ⊢
      · simpa [hak] using h

theorem runTimers_mono (ts : List Timer) (d : Document) (k : Nat)
    (h : closedOf k d = true) :
    closedOf k (ts.foldl (fun d t => t.callback.run d) d) = true := by
  induction ts generalizing d with
  | nil => exact h
  | cons t ts ih =>
    rw [List.foldl_cons]
    exact ih _ (closedOf_run_mono t k d h)

/-- A timer for the element at position `k` among those that run closes it. -/
theorem runTimers_closes (ts : List Timer) (d : Document) (k : Nat)
    (hk : k < d.elements.length) (h : ∃ t ∈ ts, t.callback = Callback.close k) :
    closedOf k (ts.foldl (fun d t => t.callback.run d) d) = true := by
  induction ts generalizing d with
  | nil => simp at h
  | cons t ts ih =>
    rw [List.foldl_cons]
    by_cases ht : t.callback = Callback.close k
    · apply runTimers_mono
      rw [ht]
      exact closedOf_close k d hk
    · obtain ⟨x, hx, hxk⟩ := h
      rcases List.mem_cons.mp hx with hx | hx
      · exact absurd (hx ▸ hxk) ht
      · refine ih _ ?_ ⟨x, hx, hxk⟩
        have := runTimers_length [t] d
        simp only [List.foldl_cons, List.foldl_nil] at this
        omega

theorem countP_andNot (s t : Selector) (els : List Element) :
    els.countP (Selector.andNot s t).matches =
      els.countP s.matches - els.countP (fun e => s.matches e && t.matches e) := by
  have key : els.countP s.matches =
      els.countP (Selector.andNot s t).matches +
        els.countP (fun e => s.matches e && t.matches e) := by
    induction els with
    | nil => simp
    | cons e es ih =>
      simp only [List.countP_cons, ih, Selector.matches]
      cases s.matches e <;> cases t.matches e <;> simp <;> omega
  omega

theorem mem_alerts_iff (els : List Element) (i : Nat) :
    i ∈ matchesFrom alertSelector 0 els ↔
      ∃ e, els[i]? = some e ∧ "alert" ∈ e.classList ∧ "alert-danger" ∉ e.classList := by
  simp [mem_matchesFrom, alertSelector, Selector.matches]

theorem load_timers_delay (els : List Element) :
    ∀ t ∈ (onDOMContentLoaded (page els)).1.timers, t.delay = 5000 := by
  intro t ht
  rw [load_timers] at ht
  obtain ⟨a, _, rfl⟩ := List.mem_map.mp ht
  rfl

/-- Before the delay has passed nothing happens. -/
theorem elapse_early (els : List Element) (ms : Nat) (h : ms < 5000) :
    elapse ms (onDOMContentLoaded (page els)).1 = (onDOMContentLoaded (page els)).1 := by
  have hd := load_timers_delay els
  have h1 : (onDOMContentLoaded (page els)).1.timers.filter
      (fun t => decide (t.delay ≤ ms)) = [] := by
    rw [List.filter_eq_nil_iff]
    intro t ht
    have := hd t ht
    simp only [decide_eq_true_eq]
    omega
  have h2 : (onDOMContentLoaded (page els)).1.timers.filter
      (fun t => !decide (t.delay ≤ ms)) = (onDOMContentLoaded (page els)).1.timers := by
    rw [List.filter_eq_self]
    intro t ht
    have := hd t ht
    simp only [Bool.not_eq_true', decide_eq_false_iff_not]
    omega
  unfold elapse
  rw [h1, h2]
  rfl

/-- Once the delay has passed every timer set at page load has run. -/
theorem elapse_late (els : List Element) (ms : Nat) (h : 5000 ≤ ms) :
    elapse ms (onDOMContentLoaded (page els)).1 =
      ((matchesFrom alertSelector 0 els).map closeTimer).foldl (fun d t => t.callback.run d)
        { (onDOMContentLoaded (page els)).1 with timers := [] } := by
  have hd := load_timers_delay els
  have h1 : (onDOMContentLoaded (page els)).1.timers.filter
      (fun t => decide (t.delay ≤ ms)) = (onDOMContentLoaded (page els)).1.timers := by
    rw [List.filter_eq_self]
    intro t ht
    have := hd t ht
    simp only [decide_eq_true_eq]
    omega
  have h2 : (onDOMContentLoaded (page els)).1.timers.filter
      (fun t => !decide (t.delay ≤ ms)) = [] := by
    rw [List.filter_eq_nil_iff]
    intro t ht
    have := hd t ht
    simp only [Bool.not_eq_true', decide_eq_false_iff_not, not_not]
    omega
  unfold elapse
  rw [h1, h2, load_timers]

theorem getElementById_page (id : String) (els : List Element) :
    getElementById id (page els) = findIdFrom id 0 els := rfl

theorem querySelectorAll_page (sel : Selector) (els : List Element) :
    querySelectorAll sel (page els) = matchesFrom sel 0 els := rfl

theorem matches_congr (sel : Selector) {e e' : Element}
    (h : e'.classList = e.classList) : sel.matches e' = sel.matches e := by
  induction sel with
  | cls c => simp [Selector.matches, h]
  | andNot s t ihs iht => simp [Selector.matches, ihs, iht]

/-- A selector query over classes sees only the class lists. -/
theorem matchesFrom_congr (sel : Selector) (els els' : List Element) (i : Nat)
    (h : els'.map (fun e => e.classList) = els.map (fun e => e.classList)) :
    matchesFrom sel i els' = matchesFrom sel i els := by
  induction els generalizing els' i with
  | nil =>
    have : els' = [] := by simpa using h
    subst this; rfl
  | cons e es ih =>
    cases els' with
    | nil => simp at h
    | cons e' es' =>
      simp only [List.map_cons, List.cons.injEq] at h
      simp only [matchesFrom, matches_congr sel h.1, ih es' (i + 1) h.2]

/-- A change event at the password field runs `validatePassword`, once. -/
theorem dispatch_change (els : List Element) (f p c : Nat) (d : Document)
    (hf : findIdFrom "registerForm" 0 els = some f)
    (hp : findIdFrom "password" 0 els = some p)
    (hc : findIdFrom "confirm_password" 0 els = some c)
    (hd : d.listeners = (onDOMContentLoaded (page els)).1.listeners) :
    dispatchEvent p (newEvent "change") d =
      (newEvent "change", (validatePassword (some p) (some c) d).1,
        [(validatePassword (some p) (some c) d).2]) := by
  unfold dispatchEvent
  rw [hd, load_with_fields els f p c hf hp hc]
  show runListeners (_ ++ changeListener p (some c) :: [keyupListener p c]) _ _ _ = _
  rw [runListeners_single]
  · simp [changeListener, Handler.run]
  · intro x hx
    obtain ⟨a, _, rfl⟩ := List.mem_map.mp hx
    simp [submitListener, newEvent]
  · intro x hx
    simp only [List.mem_singleton] at hx
    subst hx
    simp [keyupListener, newEvent]
  · exact ⟨rfl, rfl⟩

/-- A keyup event at the confirmation field runs `validatePassword`, once. -/
theorem dispatch_keyup (els : List Element) (f p c : Nat) (d : Document)
    (hf : findIdFrom "registerForm" 0 els = some f)
    (hp : findIdFrom "password" 0 els = some p)
    (hc : findIdFrom "confirm_password" 0 els = some c)
    (hd : d.listeners = (onDOMContentLoaded (page els)).1.listeners) :
    dispatchEvent c (newEvent "keyup") d =
      (newEvent "keyup", (validatePassword (some p) (some c) d).1,
        [(validatePassword (some p) (some c) d).2]) := by
  unfold dispatchEvent
  rw [hd, load_with_fields els f p c hf hp hc]
  show runListeners (_ ++ [changeListener p (some c), keyupListener p c]) _ _ _ = _
  have : (matchesFrom formSelector 0 els).map submitListener ++
      [changeListener p (some c), keyupListener p c] =
      ((matchesFrom formSelector 0 els).map submitListener ++ [changeListener p (some c)]) ++
        keyupListener p c :: [] := by simp
  rw [this, runListeners_single]
  · simp [keyupListener, Handler.run]
  · intro x hx
    rcases List.mem_append.mp hx with hx | hx
    · obtain ⟨a, _, rfl⟩ := List.mem_map.mp hx
      simp [submitListener, newEvent]
    · simp only [List.mem_singleton] at hx
      subst hx
      simp [changeListener, newEvent]
  · simp
  · exact ⟨rfl, rfl⟩

/-! The claims -/

/-- C1: for every pair of values `p`, `c` held by the password and the
confirmation field, `validatePassword` completes normally and sets the custom
validity message of the confirmation field, and nothing else, to the empty
string when `p = c` and to "Passwords Don't Match" when `p ≠ c`. -/
theorem validatePassword_sets_message (d : Document) (i j : Nat) (p c : String)
    (hp : valueOf (some i) d = some p) (hc : valueOf (some j) d = some c) :
    validatePassword (some i) (some j) d =
        (setCustomValidity j (if p = c then "" else "Passwords Don't Match") d, .normal) ∧
      (p = c → customValidityOf j (validatePassword (some i) (some j) d).1 = some "") ∧
      (p ≠ c → customValidityOf j (validatePassword (some i) (some j) d).1 =
        some "Passwords Don't Match") := by
  have hj := valueOf_some_lt hc
  rw [validatePassword_eq d i j p c hp hc]
  refine ⟨rfl, fun h => ?_, fun h => ?_⟩
  · simp [h, customValidityOf_setCustomValidity j _ d hj]
  · simp [h, customValidityOf_setCustomValidity j _ d hj]

/-- C1, at the values of the specification's two scenarios. -/
theorem validatePassword_sets_message_witness :
    (valueOf (some 1) (page (registerPage "Secret1" "Secret1")) = some "Secret1" ∧
      valueOf (some 2) (page (registerPage "Secret1" "Secret1")) = some "Secret1" ∧
      customValidityOf 2
        (validatePassword (some 1) (some 2) (page (registerPage "Secret1" "Secret1"))).1 =
          some "") ∧
    (valueOf (some 1) (page (registerPage "Secret1" "Secret2")) = some "Secret1" ∧
      valueOf (some 2) (page (registerPage "Secret1" "Secret2")) = some "Secret2" ∧
      customValidityOf 2
        (validatePassword (some 1) (some 2) (page (registerPage "Secret1" "Secret2"))).1 =
          some "Passwords Don't Match") :=
  ⟨⟨rfl, rfl,
      (validatePassword_sets_message (page (registerPage "Secret1" "Secret1")) 1 2
        "Secret1" "Secret1" rfl rfl).2.1 rfl⟩,
    ⟨rfl, rfl,
      (validatePassword_sets_message (page (registerPage "Secret1" "Secret2")) 1 2
        "Secret1" "Secret2" rfl rfl).2.2 (by decide)⟩⟩

/-- C8: with both fields there, the state `validatePassword` leaves behind does
not depend on the custom validity message the confirmation field carried
before the call (any two prior messages give the same state, whose message is
decided by the two values alone), and running it a second time changes
nothing. -/
theorem validatePassword_history_free (d : Document) (i j : Nat) (p c m₁ m₂ : String)
    (hp : valueOf (some i) d = some p) (hc : valueOf (some j) d = some c) :
    validatePassword (some i) (some j) (setCustomValidity j m₁ d) =
        validatePassword (some i) (some j) (setCustomValidity j m₂ d) ∧
      customValidityOf j (validatePassword (some i) (some j) (setCustomValidity j m₁ d)).1 =
        some (if p = c then "" else "Passwords Don't Match") ∧
      validatePassword (some i) (some j)
          (validatePassword (some i) (some j) (setCustomValidity j m₁ d)).1 =
        validatePassword (some i) (some j) (setCustomValidity j m₁ d) := by
  have hj := valueOf_some_lt hc
  have key : ∀ m, validatePassword (some i) (some j) (setCustomValidity j m d) =
      (setCustomValidity j (if p = c then "" else "Passwords Don't Match") d, .normal) := by
    intro m
    rw [validatePassword_eq (setCustomValidity j m d) i j p c
      (by rw [valueOf_setCustomValidity]; exact hp)
      (by rw [valueOf_setCustomValidity]; exact hc),
      setCustomValidity_setCustomValidity]
  refine ⟨by rw [key m₁, key m₂], ?_, ?_⟩
  · rw [key m₁]
    exact customValidityOf_setCustomValidity j _ d hj
  · rw [key m₁]
    exact key _

/-- C8, on the registration page with differing values and two prior messages. -/
theorem validatePassword_history_free_witness :
    valueOf (some 1) (page (registerPage "Secret1" "Secret2")) = some "Secret1" ∧
    valueOf (some 2) (page (registerPage "Secret1" "Secret2")) = some "Secret2" ∧
    validatePassword (some 1) (some 2)
        (setCustomValidity 2 "stale" (page (registerPage "Secret1" "Secret2"))) =
      validatePassword (some 1) (some 2)
        (setCustomValidity 2 "" (page (registerPage "Secret1" "Secret2"))) :=
  ⟨rfl, rfl,
    (validatePassword_history_free (page (registerPage "Secret1" "Secret2")) 1 2
      "Secret1" "Secret2" "stale" "" rfl rfl).1⟩

/-- C2: for every form selected by `.needs-validation` and every submit event
dispatched at it after page load, the listener cancels the default action and
stops propagation when `checkValidity()` is false and leaves the event as it
was when `checkValidity()` is true; so a fresh submit event ends up cancelled,
and ends up stopped, exactly when `checkValidity()` is false. -/
theorem submit_cancelled_iff_invalid (els : List Element) (form : Nat) (d : Document)
    (ev : Event)
    (hform : form ∈ querySelectorAll formSelector (page els))
    (hd : d.listeners = (onDOMContentLoaded (page els)).1.listeners)
    (hev : ev.eventType = "submit") :
    (checkValidity form d = false →
        (dispatchEvent form ev d).1 = stopPropagation (preventDefault ev)) ∧
      (checkValidity form d = true → (dispatchEvent form ev d).1 = ev) ∧
      ((dispatchEvent form (newEvent "submit") d).1.defaultPrevented = true ↔
        checkValidity form d = false) ∧
      ((dispatchEvent form (newEvent "submit") d).1.propagationStopped = true ↔
        checkValidity form d = false) := by
  have h1 := dispatch_submit els form d ev hform hd hev
  have h2 := dispatch_submit els form d (newEvent "submit") hform hd rfl
  rw [h1, h2]
  simp only [submitHandler]
  cases hv : checkValidity form d <;>
    simp [stopPropagation, preventDefault, newEvent]

/-- C2, on the registration page at a moment when the form is invalid. -/
theorem submit_cancelled_iff_invalid_witness :
    0 ∈ querySelectorAll formSelector (page (registerPage "a" "b")) ∧
    checkValidity 0
      (updateElement 0 (fun e => { e with valid := false })
        (onDOMContentLoaded (page (registerPage "a" "b"))).1) = false ∧
    (dispatchEvent 0 (newEvent "submit")
      (updateElement 0 (fun e => { e with valid := false })
        (onDOMContentLoaded (page (registerPage "a" "b"))).1)).1 =
      stopPropagation (preventDefault (newEvent "submit")) :=
  ⟨by decide, rfl,
    (submit_cancelled_iff_invalid (registerPage "a" "b") 0
      (updateElement 0 (fun e => { e with valid := false })
        (onDOMContentLoaded (page (registerPage "a" "b"))).1)
      (newEvent "submit") (by decide) rfl rfl).1 rfl⟩

/-- C3: for every form selected by `.needs-validation`, after a submit attempt
the class list of the form contains `was-validated` whether the form was valid
or not; after any further attempts the registrations are those made at page
load and the class list is the one the first attempt left; and a later attempt
is checked again: its event is cancelled exactly when the form is invalid at
that attempt. -/
theorem was_validated_after_every_submit (els : List Element) (form : Nat) (v w : Bool)
    (vs : List Bool)
    (hform : form ∈ querySelectorAll formSelector (page els)) :
    "was-validated" ∈ classListOf form
        (submitAttempt form v (onDOMContentLoaded (page els)).1).2 ∧
      classListOf form (submitAttempts form (v :: vs) (onDOMContentLoaded (page els)).1) =
        classListOf form (submitAttempt form v (onDOMContentLoaded (page els)).1).2 ∧
      (submitAttempts form (v :: vs) (onDOMContentLoaded (page els)).1).listeners =
        (onDOMContentLoaded (page els)).1.listeners ∧
      (submitAttempt form w
          (submitAttempts form (v :: vs) (onDOMContentLoaded (page els)).1)).1.defaultPrevented =
        !w := by
  have hlen : form < (onDOMContentLoaded (page els)).1.elements.length := by
    rw [load_elements]; exact lt_of_mem_matchesFrom hform
  have h1 := submitAttempt_listeners els form v _ hform rfl
  have h2 := submitAttempt_length els form v _ hform rfl
  have h3 := submitAttempt_classList els form v _ hform rfl hlen
  have hmark : "was-validated" ∈ classListOf form
      (submitAttempt form v (onDOMContentLoaded (page els)).1).2 := by
    rw [h3]; exact mem_classListAdd _ _
  have hst := submitAttempts_stable els form vs
    (submitAttempt form v (onDOMContentLoaded (page els)).1).2 hform h1 (by omega) hmark
  have hfold : submitAttempts form (v :: vs) (onDOMContentLoaded (page els)).1 =
      submitAttempts form vs (submitAttempt form v (onDOMContentLoaded (page els)).1).2 := rfl
  refine ⟨hmark, by rw [hfold]; exact hst.2.2, by rw [hfold]; exact hst.1.trans h1, ?_⟩
  rw [submitAttempt_event els form w _ hform (by rw [hfold]; exact hst.1.trans h1)
    (by rw [hfold, hst.2.1]; omega)]
  cases w <;> simp [newEvent, stopPropagation, preventDefault]

/-- C3, on the registration page: an invalid attempt, then two more. -/
theorem was_validated_after_every_submit_witness :
    0 ∈ querySelectorAll formSelector (page (registerPage "a" "b")) ∧
    classListOf 0
      (submitAttempts 0 [false, true, false] (onDOMContentLoaded (page (registerPage "a" "b"))).1) =
      classListOf 0 (submitAttempt 0 false (onDOMContentLoaded (page (registerPage "a" "b"))).1).2 :=
  ⟨by decide,
    (was_validated_after_every_submit (registerPage "a" "b") 0 false true [true, false]
      (by decide)).2.1⟩

/-- C4: every element present at page load that has class `alert` and does
not have class `alert-danger` gets exactly one timer, of 5000 ms; the callback
of that timer closes that element and touches no other; nothing happens on
the page before 5000 ms have passed, and once they have the element is
closed. -/
theorem alert_close_scheduled (els : List Element) (i : Nat) (e : Element)
    (he : els[i]? = some e) (ha : "alert" ∈ e.classList)
    (hn : "alert-danger" ∉ e.classList) :
    (onDOMContentLoaded (page els)).1.timers.filter
        (fun t => decide (t.callback = Callback.close i)) = [⟨Callback.close i, 5000⟩] ∧
      (∀ d : Document, i < d.elements.length →
        closedOf i ((Callback.close i).run d) = true ∧
          ∀ k, k ≠ i → ((Callback.close i).run d).elements[k]? = d.elements[k]?) ∧
      (∀ ms, ms < 5000 →
        elapse ms (onDOMContentLoaded (page els)).1 = (onDOMContentLoaded (page els)).1) ∧
      closedOf i (elapse 5000 (onDOMContentLoaded (page els)).1) = true := by
  have hi : i ∈ matchesFrom alertSelector 0 els := (mem_alerts_iff els i).mpr ⟨e, he, ha, hn⟩
  have hlen : i < els.length := lt_of_mem_matchesFrom hi
  refine ⟨?_, ?_, fun ms h => elapse_early els ms h, ?_⟩
  · rw [load_timers]
    exact filter_closeTimer _ i (matchesFrom_nodup _ _ _) hi
  · intro d hd
    refine ⟨closedOf_close i d hd, fun k hk => ?_⟩
    simp [Callback.run, closeAlert, bootstrapAlertClose, elements_updateElement, hk.symm]
  · rw [elapse_late els 5000 (le_refl _)]
    apply runTimers_closes
    · simpa [load_elements] using hlen
    · exact ⟨closeTimer i, List.mem_map.mpr ⟨i, hi, rfl⟩, rfl⟩

/-- C4, at the first alert of the three-alert page. -/
theorem alert_close_scheduled_witness :
    alertsPage[0]? = some (mkElement "" ["alert", "alert-success"] "" true) ∧
    "alert" ∈ (mkElement "" ["alert", "alert-success"] "" true).classList ∧
    "alert-danger" ∉ (mkElement "" ["alert", "alert-success"] "" true).classList ∧
    (onDOMContentLoaded (page alertsPage)).1.timers.filter
        (fun t => decide (t.callback = Callback.close 0)) = [⟨Callback.close 0, 5000⟩] ∧
    closedOf 0 (elapse 5000 (onDOMContentLoaded (page alertsPage)).1) = true :=
  ⟨rfl, by decide, by decide,
    (alert_close_scheduled alertsPage 0 (mkElement "" ["alert", "alert-success"] "" true)
      rfl (by decide) (by decide)).1,
    (alert_close_scheduled alertsPage 0 (mkElement "" ["alert", "alert-success"] "" true)
      rfl (by decide) (by decide)).2.2.2⟩

/-- C5: for an element carrying class `alert-danger` no timer set at page load
closes it, and whatever time passes the element stays as it was; and the
number of timers set is the number of elements with class `alert` less the
number of those that also carry `alert-danger`. -/
theorem danger_alert_never_scheduled (els : List Element) (i : Nat) (e : Element)
    (ms : Nat) (he : els[i]? = some e) (hdanger : "alert-danger" ∈ e.classList) :
    (∀ t ∈ (onDOMContentLoaded (page els)).1.timers, t.callback ≠ Callback.close i) ∧
      (elapse ms (onDOMContentLoaded (page els)).1).elements[i]? = some e ∧
      (onDOMContentLoaded (page els)).1.timers.length =
        els.countP (fun x => decide ("alert" ∈ x.classList)) -
          els.countP (fun x => decide ("alert" ∈ x.classList) &&
            decide ("alert-danger" ∈ x.classList)) := by
  have hnot : i ∉ matchesFrom alertSelector 0 els := by
    rw [mem_alerts_iff]
    rintro ⟨e', he', _, hn⟩
    rw [he] at he'
    cases he'
    exact hn hdanger
  have hno : ∀ t ∈ (onDOMContentLoaded (page els)).1.timers, t.callback ≠ Callback.close i := by
    intro t ht hc
    rw [load_timers] at ht
    obtain ⟨a, ha, rfl⟩ := List.mem_map.mp ht
    simp only [closeTimer, Callback.close.injEq] at hc
    exact hnot (hc ▸ ha)
  refine ⟨hno, ?_, ?_⟩
  · by_cases h : ms < 5000
    · rw [elapse_early els ms h, load_elements, he]
    · rw [elapse_late els ms (by omega), runTimers_untouched]
      · simp [load_elements, he]
      · rw [← load_timers]; exact hno
  · rw [load_timers, List.length_map, length_matchesFrom, alertSelector, countP_andNot]
    rfl

/-- C5, on the page with three alerts of which the second is of error
severity: two timers are set, and after 5000 ms the first and the third alert
are closed and the second is not. -/
theorem danger_alert_never_scheduled_witness :
    alertsPage[1]? = some (mkElement "" ["alert", "alert-danger"] "" true) ∧
    "alert-danger" ∈ (mkElement "" ["alert", "alert-danger"] "" true).classList ∧
    (elapse 5000 (onDOMContentLoaded (page alertsPage)).1).elements[1]? =
      some (mkElement "" ["alert", "alert-danger"] "" true) ∧
    (onDOMContentLoaded (page alertsPage)).1.timers.length = 2 ∧
    (elapse 5000 (onDOMContentLoaded (page alertsPage)).1).elements.map (fun x => x.closed) =
      [true, false, true] :=
  ⟨rfl, by decide,
    (danger_alert_never_scheduled alertsPage 1 (mkElement "" ["alert", "alert-danger"] "" true)
      5000 rfl (by decide)).2.1,
    by decide, by decide⟩

/-- C6: when no element has id `registerForm`, the password-matcher block
leaves every state it is run in unchanged and completes normally; page load
completes normally with the submit listeners of the selected forms as its only
registrations; and on any page with the same class lists (one that has the
registration form, say) the timers are the same and the registrations are the
same submit listeners, followed only by registrations that are not for
submit events. -/
theorem no_form_no_matcher (els els' : List Element)
    (hf : getElementById "registerForm" (page els) = none)
    (hsame : els'.map (fun e => e.classList) = els.map (fun e => e.classList)) :
    (∀ d : Document, d.elements = els → passwordMatcher d = (d, .normal)) ∧
      (onDOMContentLoaded (page els)).2 = .normal ∧
      (onDOMContentLoaded (page els)).1.listeners =
        (querySelectorAll formSelector (page els)).map submitListener ∧
      (onDOMContentLoaded (page els')).1.timers = (onDOMContentLoaded (page els)).1.timers ∧
      ∃ M : List Listener,
        (onDOMContentLoaded (page els')).1.listeners =
            (onDOMContentLoaded (page els)).1.listeners ++ M ∧
          ∀ l ∈ M, l.eventType ≠ "submit" := by
  have hf' : findIdFrom "registerForm" 0 els = none := hf
  have hload := load_without_form els hf'
  refine ⟨?_, by rw [hload], by rw [hload]; rfl, ?_, ?_⟩
  · intro d hd
    simp [passwordMatcher, getElementById, hd, hf']
  · rw [load_timers, load_timers, matchesFrom_congr alertSelector els els' 0 hsame]
  · obtain ⟨M, hM, hsub⟩ := load_listeners_shape els'
    refine ⟨M, ?_, hsub⟩
    rw [hM, hload, matchesFrom_congr formSelector els els' 0 hsame]

/-- C6, comparing the login page with the registration page, whose elements
carry the same classes. -/
theorem no_form_no_matcher_witness :
    getElementById "registerForm" (page loginPage) = none ∧
    (registerPage "" "").map (fun e => e.classList) =
      loginPage.map (fun e => e.classList) ∧
    (onDOMContentLoaded (page loginPage)).2 = .normal ∧
    (onDOMContentLoaded (page loginPage)).1.listeners =
      (querySelectorAll formSelector (page loginPage)).map submitListener :=
  ⟨by decide, by decide,
    (no_form_no_matcher loginPage (registerPage "" "") (by decide) (by decide)).2.1,
    (no_form_no_matcher loginPage (registerPage "" "") (by decide) (by decide)).2.2.1⟩

/-- C7: the page-load listener raises exactly when an element with id
`registerForm` is present and an element with id `password` or one with id
`confirm_password` is absent; in every other case it completes normally. -/
theorem load_raises_iff (els : List Element) :
    ((onDOMContentLoaded (page els)).2 = .throwTypeError ↔
        getElementById "registerForm" (page els) ≠ none ∧
          (getElementById "password" (page els) = none ∨
            getElementById "confirm_password" (page els) = none)) ∧
      ((onDOMContentLoaded (page els)).2 = .normal ↔
        getElementById "registerForm" (page els) = none ∨
          (getElementById "password" (page els) ≠ none ∧
            getElementById "confirm_password" (page els) ≠ none)) := by
  simp only [getElementById_page]
  cases hf : findIdFrom "registerForm" 0 els with
  | none => simp [load_without_form els hf]
  | some f =>
    cases hp : findIdFrom "password" 0 els with
    | none => simp [load_without_password els f hf hp]
    | some p =>
      cases hc : findIdFrom "confirm_password" 0 els with
      | none => simp [load_without_confirm els f p hf hp hc]
      | some c => simp [load_with_fields els f p c hf hp hc]

/-- C9: with the registration form and both fields present, in any later state
of the page a change event at the password field and a keyup event at the
confirmation field each run `validatePassword` on the values the fields hold
at that moment, and right after either event the custom validity message of
the confirmation field is empty exactly when the two values are equal. -/
theorem matcher_runs_on_change_and_keyup (els : List Element) (f p c : Nat) (d : Document)
    (vp vc : String)
    (hf : getElementById "registerForm" (page els) = some f)
    (hp : getElementById "password" (page els) = some p)
    (hc : getElementById "confirm_password" (page els) = some c)
    (hd : d.listeners = (onDOMContentLoaded (page els)).1.listeners)
    (hvp : valueOf (some p) d = some vp) (hvc : valueOf (some c) d = some vc) :
    dispatchEvent p (newEvent "change") d =
        (newEvent "change", (validatePassword (some p) (some c) d).1, [.normal]) ∧
      dispatchEvent c (newEvent "keyup") d =
        (newEvent "keyup", (validatePassword (some p) (some c) d).1, [.normal]) ∧
      (customValidityOf c (dispatchEvent p (newEvent "change") d).2.1 = some "" ↔ vp = vc) ∧
      (customValidityOf c (dispatchEvent c (newEvent "keyup") d).2.1 = some "" ↔ vp = vc) := by
  have h1 := dispatch_change els f p c d hf hp hc hd
  have h2 := dispatch_keyup els f p c d hf hp hc hd
  have hv := validatePassword_eq d p c vp vc hvp hvc
  have hlen := valueOf_some_lt hvc
  rw [h1, h2, hv]
  simp only [customValidityOf_setCustomValidity c _ d hlen, Option.some.injEq, true_and]
  by_cases h : vp = vc
  · simp [h]
  · simp only [h, if_false, iff_false]
    exact ⟨by decide, by decide⟩

/-- C9, on the registration page after the user has typed a matching
confirmation. -/
theorem matcher_runs_on_change_and_keyup_witness :
    getElementById "registerForm" (page (registerPage "Secret1" "")) = some 0 ∧
    getElementById "password" (page (registerPage "Secret1" "")) = some 1 ∧
    getElementById "confirm_password" (page (registerPage "Secret1" "")) = some 2 ∧
    valueOf (some 1)
      (setValue 2 "Secret1" (onDOMContentLoaded (page (registerPage "Secret1" ""))).1) =
        some "Secret1" ∧
    valueOf (some 2)
      (setValue 2 "Secret1" (onDOMContentLoaded (page (registerPage "Secret1" ""))).1) =
        some "Secret1" ∧
    (customValidityOf 2
      (dispatchEvent 2 (newEvent "keyup")
        (setValue 2 "Secret1" (onDOMContentLoaded (page (registerPage "Secret1" ""))).1)).2.1 =
          some "" ↔ "Secret1" = "Secret1") :=
  ⟨by decide, by decide, by decide, rfl, rfl,
    (matcher_runs_on_change_and_keyup (registerPage "Secret1" "") 0 1 2
      (setValue 2 "Secret1" (onDOMContentLoaded (page (registerPage "Secret1" ""))).1)
      "Secret1" "Secret1" (by decide) (by decide) (by decide) rfl rfl rfl).2.2.2⟩

/-- C10: when page load raises, the timers of the alerts and the submit
listeners of the forms are in place all the same; if the password field is
present (so that it is the confirmation field that is missing) the change
listener on the password field has been attached as well, and if the password
field is absent nothing else has; so among the failing cases no listener of
the password matcher is attached exactly when the password field is absent. -/
theorem matcher_failure_not_atomic (els : List Element)
    (hfail : (onDOMContentLoaded (page els)).2 = .throwTypeError) :
    (onDOMContentLoaded (page els)).1.timers =
        (querySelectorAll alertSelector (page els)).map closeTimer ∧
      (∀ form ∈ querySelectorAll formSelector (page els),
        submitListener form ∈ (onDOMContentLoaded (page els)).1.listeners) ∧
      (∀ p, getElementById "password" (page els) = some p →
        getElementById "confirm_password" (page els) = none ∧
          (onDOMContentLoaded (page els)).1.listeners =
            (querySelectorAll formSelector (page els)).map submitListener ++
              [changeListener p none]) ∧
      (getElementById "password" (page els) = none →
        (onDOMContentLoaded (page els)).1.listeners =
          (querySelectorAll formSelector (page els)).map submitListener) ∧
      ((∀ l ∈ (onDOMContentLoaded (page els)).1.listeners,
          ∀ a b, l.handler ≠ Handler.validate a b) ↔
        getElementById "password" (page els) = none) := by
  simp only [getElementById_page, querySelectorAll_page] at *
  cases hf : findIdFrom "registerForm" 0 els with
  | none => simp [load_without_form els hf] at hfail
  | some f =>
    cases hp : findIdFrom "password" 0 els with
    | none =>
      rw [load_without_password els f hf hp]
      refine ⟨rfl, fun form h => List.mem_map.mpr ⟨form, h, rfl⟩, by simp, by simp, ?_⟩
      simp only [iff_true]
      intro l hl a b
      obtain ⟨x, _, rfl⟩ := List.mem_map.mp hl
      simp [submitListener]
    | some p =>
      cases hc : findIdFrom "confirm_password" 0 els with
      | none =>
        rw [load_without_confirm els f p hf hp hc]
        refine ⟨rfl, fun form h => List.mem_append_left _ (List.mem_map.mpr ⟨form, h, rfl⟩),
          by simp, by simp, ?_⟩
        simp only [iff_false, reduceCtorEq]
        intro h
        exact h (changeListener p none) (by simp) (some p) none rfl
      | some c => simp [load_with_fields els f p c hf hp hc] at hfail

/-- C10, on the registration page that lacks the confirmation field. -/
theorem matcher_failure_not_atomic_witness :
    (onDOMContentLoaded (page pageWithoutConfirm)).2 = .throwTypeError ∧
    (onDOMContentLoaded (page pageWithoutConfirm)).1.timers = [closeTimer 0] ∧
    (onDOMContentLoaded (page pageWithoutConfirm)).1.listeners =
      [submitListener 1, changeListener 2 none] :=
  ⟨by decide,
    (matcher_failure_not_atomic pageWithoutConfirm (by decide)).1,
    ((matcher_failure_not_atomic pageWithoutConfirm (by decide)).2.2.1 2 (by decide)).2⟩

end Lumina
